import Mathlib

/-!
Verification of the property-listing backend (`src/main.py`, `src/schemas.py`).

The repository is a FastAPI service over a MongoDB collection `"property"`.
The two core pieces specified by the design document are:

* the Filter Builder — the body of `list_properties` (main.py lines 106-127)
  that turns the optional query parameters into a MongoDB filter dictionary;
* the Result Normalizer — the per-record loop of `list_properties`
  (lines 130-142) and the corresponding inline code of `get_property`
  (lines 157-167) that renames `_id` to a string field `id` and converts
  `created_at` / `updated_at` timestamps to ISO strings;

plus the `get_property` endpoint logic (lines 145-168).

The embedding below mirrors the Python source:

* optional query parameters become `Option` fields;
* Python truthiness tests on optional strings (`if type:`, `if location:`,
  `if q:`) become "present and non-empty";
* the filter dictionary becomes an ordered list of tagged clauses, one
  constructor per key/value shape inserted by the source
  (`"type"`, `"location"`, `"bedrooms"`, `"featured"`, `"price"`, `"$or"`);
  list order is dict insertion order;
* MongoDB documents become ordered association lists `Record` with unique
  keys (Python dicts); `dict.pop`, `d[k] = v` and `"k" in d` become the
  corresponding association-list operations;
* `datetime` values are abstract: a `PyDatetime` carries its ISO-8601
  rendering, and `.isoformat()` succeeds exactly on `PyDatetime` values
  (on any other value the attribute access raises, which the source
  catches with `except Exception: pass`);
* prices (Python floats carrying ordinary decimal values) are modelled
  as rationals; the filter builder performs no arithmetic on them.
-/

/-- A MongoDB `$regex` clause with `$options: "i"` on a literal pattern, as
produced by the source, matches case-insensitively as a substring test.
`strStarts pat s` = `pat` is a prefix of `s` (over character lists). -/
def strStarts : List Char → List Char → Bool
  | [], _ => true
  | _ :: _, [] => false
  | a :: as, b :: bs => a == b && strStarts as bs

/-- `strHas pat s` = `pat` occurs as a contiguous substring of `s`. -/
def strHas : List Char → List Char → Bool
  | pat, [] => pat.isEmpty
  | pat, c :: rest => strStarts pat (c :: rest) || strHas pat rest

/-- Case-insensitive substring test: the semantics of the source's
`{"$regex": pat, "$options": "i"}` clauses (patterns taken as literals). -/
def substrI (pat s : String) : Bool :=
  strHas pat.toLower.toList s.toLower.toList

/-- The optional query parameters of `GET /api/properties`
(`list_properties`, main.py lines 95-103), minus `limit` which is not part
of the filter expression. -/
structure ListParams where
  q : Option String
  type : Option String
  location : Option String
  min_price : Option Rat
  max_price : Option Rat
  bedrooms : Option Int
  featured : Option Bool
  deriving Repr, DecidableEq

/-- One entry of the `filter_dict` built by `list_properties`
(main.py lines 106-127).  Each constructor corresponds to exactly one
key/value shape the source can insert:

* `eqType t`       = `filter_dict["type"] = t`
* `locRegex l`     = `filter_dict["location"] = {"$regex": l, "$options": "i"}`
* `eqBedrooms n`   = `filter_dict["bedrooms"] = n`
* `eqFeatured b`   = `filter_dict["featured"] = b`
* `priceRange lo hi` = `filter_dict["price"] = {"$gte": lo?, "$lte": hi?}`
* `freeText s`     = `filter_dict["$or"] = [{"title": ...}, {"location": ...}, {"type": ...}]`
-/
inductive Clause where
  | eqType (t : String)
  | locRegex (l : String)
  | eqBedrooms (n : Int)
  | eqFeatured (b : Bool)
  | priceRange (lo hi : Option Rat)
  | freeText (s : String)
  deriving Repr, DecidableEq

/-- `if type: filter_dict["type"] = type` (main.py lines 107-108):
a Python truthiness test on `Optional[str]` — present AND non-empty. -/
def typeClauses : Option String → List Clause
  | some t => if t = "" then [] else [Clause.eqType t]
  | none => []

/-- `if location: filter_dict["location"] = {"$regex": location, "$options": "i"}`
(main.py lines 109-110): truthiness test, present AND non-empty. -/
def locationClauses : Option String → List Clause
  | some l => if l = "" then [] else [Clause.locRegex l]
  | none => []

/-- `if bedrooms is not None: filter_dict["bedrooms"] = bedrooms`
(main.py lines 111-112): a presence test (0 counts). -/
def bedroomsClauses : Option Int → List Clause
  | some n => [Clause.eqBedrooms n]
  | none => []

/-- `if featured is not None: filter_dict["featured"] = featured`
(main.py lines 113-114): a presence test (False counts). -/
def featuredClauses : Option Bool → List Clause
  | some b => [Clause.eqFeatured b]
  | none => []

/-- `if min_price is not None or max_price is not None: ...`
(main.py lines 115-121): one price clause carrying exactly the supplied
bounds, inserted when either bound is present. -/
def priceClauses (lo hi : Option Rat) : List Clause :=
  if lo.isSome || hi.isSome then [Clause.priceRange lo hi] else []

/-- `if q: filter_dict["$or"] = [...]` (main.py lines 122-127):
truthiness test, present AND non-empty. -/
def qClauses : Option String → List Clause
  | some s => if s = "" then [] else [Clause.freeText s]
  | none => []

/-- The Filter Builder: the straight-line dict construction of
`list_properties`, main.py lines 106-127, one segment per `if` block.
List order is the dict insertion order of the source:
type, location, bedrooms, featured, price, free-text. -/
def buildFilter (p : ListParams) : List Clause :=
  typeClauses p.type ++ locationClauses p.location ++ bedroomsClauses p.bedrooms
    ++ featuredClauses p.featured ++ priceClauses p.min_price p.max_price
    ++ qClauses p.q

/-- A stored property document as far as filter evaluation is concerned
(the fields the built clauses mention; see `Property` in src/schemas.py). -/
structure StoredDoc where
  title : String
  type : String
  location : String
  price : Rat
  bedrooms : Option Int
  featured : Bool
  deriving Repr, DecidableEq

/-- MongoDB evaluation of one filter clause against a stored document. -/
def evalClause (c : Clause) (doc : StoredDoc) : Bool :=
  match c with
  | .eqType t => doc.type == t
  | .locRegex l => substrI l doc.location
  | .eqBedrooms n => doc.bedrooms == some n
  | .eqFeatured b => doc.featured == b
  | .priceRange lo hi =>
      (match lo with | some v => decide (v ≤ doc.price) | none => true)
      && (match hi with | some v => decide (doc.price ≤ v) | none => true)
  | .freeText s => substrI s doc.title || substrI s doc.location || substrI s doc.type

/-- MongoDB evaluation of a whole filter: the conjunction of its clauses
(an empty filter matches every document). -/
def evalFilter (f : List Clause) (doc : StoredDoc) : Bool :=
  f.all (fun c => evalClause c doc)

/-- Clause-kind rank in the fixed insertion order of the source:
type, location, bedrooms, featured, price, free-text. -/
def clauseRank : Clause → Nat
  | .eqType _ => 0
  | .locRegex _ => 1
  | .eqBedrooms _ => 2
  | .eqFeatured _ => 3
  | .priceRange _ _ => 4
  | .freeText _ => 5

/-- Is this clause the price-range clause? -/
def isPriceClause : Clause → Bool
  | .priceRange _ _ => true
  | _ => false

/-- Is this clause the free-text `$or` clause? -/
def isFreeTextClause : Clause → Bool
  | .freeText _ => true
  | _ => false

/-- `ListParams` with every parameter absent. -/
def noParams : ListParams :=
  ⟨none, none, none, none, none, none, none⟩

/-- An abstract Python `datetime` value: all the source uses is its
`.isoformat()` rendering, carried here as a string. -/
structure PyDatetime where
  iso : String
  deriving Repr, DecidableEq

/-- A value stored in a MongoDB document field, as far as the normalizer
is concerned. -/
inductive DocValue where
  | str (s : String)
  | int (n : Int)
  | float (q : Rat)
  | bool (b : Bool)
  | datetime (t : PyDatetime)
  | oid (hex : String)
  deriving Repr, DecidableEq

/-- A MongoDB document: an ordered association list with unique keys,
the shallow embedding of a Python dict. -/
abbrev Record : Type := List (String × DocValue)

/-- Python `d[k]` lookup / `d.get(k)`: first (only) binding of `k`. -/
def dictGet (k : String) (d : Record) : Option DocValue :=
  match d with
  | [] => none
  | (k', v) :: rest => if k' = k then some v else dictGet k rest

/-- Python `k in d`. -/
def dictContains (k : String) (d : Record) : Bool :=
  match d with
  | [] => false
  | (k', _) :: rest => k' == k || dictContains k rest

/-- Python `d.pop(k)` (the removal part): drops the binding of `k`.
On dicts keys are unique, so removing every binding of `k` agrees with
removing the one binding. -/
def dictRemove (k : String) (d : Record) : Record :=
  match d with
  | [] => []
  | (k', v) :: rest => if k' = k then dictRemove k rest else (k', v) :: dictRemove k rest

/-- Python `d[k] = v`: replaces the value in place when `k` is present,
otherwise appends the new binding at the end (dict insertion order). -/
def dictSet (k : String) (v : DocValue) (d : Record) : Record :=
  match d with
  | [] => [(k, v)]
  | (k', v') :: rest =>
      if k' = k then (k, v) :: rest else (k', v') :: dictSet k v rest

/-- Python `str(x)` for document values.  The source only ever applies it to
the `_id` value, an `ObjectId`, whose `str` is its 24-character hex string;
the renderings of the remaining constructors are not load-bearing. -/
def pyStr : DocValue → String
  | .str s => s
  | .int n => toString n
  | .float q => toString q
  | .bool b => if b then "True" else "False"
  | .datetime t => t.iso
  | .oid hex => hex

/-- The attempted method call `v.isoformat()`: succeeds exactly when `v` is
a `datetime`; on any other value the attribute access raises (`none`),
which the source catches with `except Exception: pass`. -/
def tryIsoformat : DocValue → Option String
  | .datetime t => some t.iso
  | _ => none

/-- One `if "created_at" in d: try: d["created_at"] = d["created_at"].isoformat()
except Exception: pass` block of the source (main.py lines 133-137 and
138-142), for field `k`: convert in place when the value is a convertible
timestamp, otherwise leave the record untouched. -/
def convertField (k : String) (d : Record) : Record :=
  match dictGet k d with
  | none => d
  | some v =>
      match tryIsoformat v with
      | none => d
      | some s => dictSet k (.str s) d

/-- `d["id"] = str(d.pop("_id"))` applied to a record known to contain
`"_id"` with value `v`: remove `"_id"`, then set `"id"`. -/
def stripIdWith (v : DocValue) (d : Record) : Record :=
  dictSet "id" (.str (pyStr v)) (dictRemove "_id" d)

/-- The guarded identifier step of the list endpoint (main.py lines
131-132): `if "_id" in d: d["id"] = str(d.pop("_id"))`. -/
def stripIdIfPresent (d : Record) : Record :=
  match dictGet "_id" d with
  | none => d
  | some v => stripIdWith v d

/-- Both timestamp-conversion blocks in source order:
`created_at` first, then `updated_at`. -/
def convertTimestamps (d : Record) : Record :=
  convertField "updated_at" (convertField "created_at" d)

/-- The Result Normalizer as applied per record by `list_properties`
(main.py lines 130-142): guarded `_id` renaming, then timestamp
conversion. -/
def normalizeRecord (d : Record) : Record :=
  convertTimestamps (stripIdIfPresent d)

/-- The per-batch normalization loop of `list_properties`
(main.py lines 130-142). -/
def normalizeBatch (ds : List Record) : List Record :=
  ds.map normalizeRecord

/-- The normalization code of `get_property` (main.py lines 157-167):
`doc["id"] = str(doc.pop("_id"))` is NOT guarded by a presence check, so on
a record without `"_id"` the `pop` raises `KeyError` (result `none`);
otherwise the same renaming and timestamp conversion as the list path. -/
def getNormalize (d : Record) : Option Record :=
  match dictGet "_id" d with
  | none => none
  | some v => some (convertTimestamps (stripIdWith v d))

/-- Is `c` a hexadecimal digit character? -/
def isHexChar (c : Char) : Bool :=
  c.isDigit || ('a' ≤ c && c ≤ 'f') || ('A' ≤ c && c ≤ 'F')

/-- `bson.ObjectId(s)` on a string succeeds exactly when `s` is 24
hexadecimal characters; otherwise it raises `InvalidId`, caught by
`get_property`'s `try/except` (main.py lines 150-153). -/
def isValidObjectId (s : String) : Bool :=
  s.length == 24 && s.toList.all isHexChar

/-- The `"property"` collection as `get_property` queries it:
`db["property"].find_one({"_id": oid})`, i.e. a partial map from the
ObjectId hex string to the stored document. -/
abbrev Store : Type := String → Option Record

/-- Outcome of a `get_property` request.  `err code detail` is a raised
`HTTPException(status_code=code, detail=detail)`; `exn msg` is an uncaught
Python exception (the framework turns it into a generic 500); `ok doc` is
a normal JSON response. -/
inductive GetResult where
  | err (code : Nat) (detail : String)
  | exn (msg : String)
  | ok (doc : Record)
  deriving Repr, DecidableEq

/-- The `GET /api/properties/{property_id}` handler, `get_property`
(main.py lines 145-168), evaluated against an optional database handle:

1. `if db is None:` → 500 "Database not configured";
2. `ObjectId(property_id)` → 400 "Invalid property id" on `InvalidId`;
3. `find_one` → `if not doc:` (Python falsiness: `None` or empty dict)
   → 404 "Property not found";
4. unguarded `doc.pop("_id")` → uncaught `KeyError` when `"_id"` is absent;
5. otherwise the normalized document. -/
def get_property (db : Option Store) (property_id : String) : GetResult :=
  match db with
  | none => .err 500 "Database not configured"
  | some store =>
      if isValidObjectId property_id then
        match store property_id with
        | none => .err 404 "Property not found"
        | some doc =>
            if doc.isEmpty then .err 404 "Property not found"
            else
              match getNormalize doc with
              | none => .exn "KeyError: _id"
              | some nd => .ok nd
      else .err 400 "Invalid property id"

/-- FastAPI validation of the `limit` query parameter, declared
`limit: int = Query(20, ge=1, le=100)` (main.py line 103): absent means 20,
an out-of-range value is a request-validation error (422-class) that
rejects the request before the handler body runs. -/
def validateLimit (limit : Option Int) : Except String Int :=
  match limit with
  | none => .ok 20
  | some n =>
      if 1 ≤ n ∧ n ≤ 100 then .ok n
      else .error "Input should be greater than or equal to 1 and less than or equal to 100"

/-- What `list_properties` hands to the store on a request that passes
parameter validation: `get_documents("property", filter_dict, limit)`
(main.py line 129) — the built filter and the validated limit. -/
def listQuery (limit : Option Int) (p : ListParams) : Except String (List Clause × Int) :=
  match validateLimit limit with
  | .error e => .error e
  | .ok n => .ok (buildFilter p, n)

/-- A concrete one-document store used to exercise the endpoint theorems
on explicit inputs. -/
def testStore : Store := fun s =>
  if s = "0123456789abcdef01234567" then
    some [("_id", DocValue.oid "0123456789abcdef01234567"),
          ("title", DocValue.str "Villa")]
  else none

/-! ### Association-list (dict) lemmas -/

theorem dictGet_dictSet_self (k : String) (v : DocValue) (d : Record) :
    dictGet k (dictSet k v d) = some v := by
  induction d with
  | nil => simp [dictSet, dictGet]
  | cons kv rest ih =>
      obtain ⟨k', v'⟩ := kv
      by_cases h : k' = k <;> simp [dictSet, dictGet, h, ih]

theorem dictGet_dictSet_ne (k k' : String) (v : DocValue) (d : Record)
    (hne : k' ≠ k) : dictGet k (dictSet k' v d) = dictGet k d := by
  induction d with
  | nil => simp [dictSet, dictGet, hne]
  | cons kv rest ih =>
      obtain ⟨k'', v''⟩ := kv
      by_cases h : k'' = k' <;> by_cases h2 : k'' = k <;>
        simp_all [dictSet, dictGet]

theorem dictGet_dictRemove_self (k : String) (d : Record) :
    dictGet k (dictRemove k d) = none := by
  induction d with
  | nil => simp [dictRemove, dictGet]
  | cons kv rest ih =>
      obtain ⟨k', v'⟩ := kv
      by_cases h : k' = k <;> simp [dictRemove, dictGet, h, ih]

theorem dictGet_dictRemove_ne (k k' : String) (d : Record) (hne : k' ≠ k) :
    dictGet k (dictRemove k' d) = dictGet k d := by
  induction d with
  | nil => simp [dictRemove, dictGet]
  | cons kv rest ih =>
      obtain ⟨k'', v''⟩ := kv
      by_cases h : k'' = k' <;> by_cases h2 : k'' = k <;>
        simp_all [dictRemove, dictGet]

theorem dictGet_convertField_ne (k k' : String) (d : Record) (hne : k' ≠ k) :
    dictGet k (convertField k' d) = dictGet k d := by
  cases hg : dictGet k' d with
  | none => simp [convertField, hg]
  | some v =>
      cases ht : tryIsoformat v with
      | none => simp [convertField, hg, ht]
      | some s => simp [convertField, hg, ht, dictGet_dictSet_ne k k' _ d hne]

theorem dictGet_convertField_self (k : String) (d : Record) :
    dictGet k (convertField k d) =
      match dictGet k d with
      | none => none
      | some v =>
          match tryIsoformat v with
          | none => some v
          | some s => some (.str s) := by
  cases hg : dictGet k d with
  | none => simp [convertField, hg]
  | some v =>
      cases ht : tryIsoformat v with
      | none => simp [convertField, hg, ht]
      | some s => simp [convertField, hg, ht, dictGet_dictSet_self]

/-- After converting field `k`, the value stored at `k` (if any) is never a
convertible timestamp: a converted value is a string, an unconverted one
already failed the conversion. -/
theorem tryIsoformat_dictGet_convertField (k : String) (d : Record) (v : DocValue)
    (h : dictGet k (convertField k d) = some v) : tryIsoformat v = none := by
  cases hg : dictGet k d with
  | none => simp [convertField, hg] at h
  | some w =>
      cases ht : tryIsoformat w with
      | none =>
          simp [convertField, hg, ht] at h
          rw [← h]
          exact ht
      | some s =>
          simp [convertField, hg, ht, dictGet_dictSet_self] at h
          rw [← h]
          rfl

/-- `convertField` is the identity when the field is absent or its value
is not a convertible timestamp. -/
theorem convertField_eq_self (k : String) (d : Record)
    (h : ∀ v, dictGet k d = some v → tryIsoformat v = none) :
    convertField k d = d := by
  cases hg : dictGet k d with
  | none => simp [convertField, hg]
  | some v => simp [convertField, hg, h v hg]

theorem dictGet_convertTimestamps_ne (k : String) (d : Record)
    (h1 : k ≠ "created_at") (h2 : k ≠ "updated_at") :
    dictGet k (convertTimestamps d) = dictGet k d := by
  unfold convertTimestamps
  rw [dictGet_convertField_ne k "updated_at" _ (fun hh => h2 hh.symm),
      dictGet_convertField_ne k "created_at" _ (fun hh => h1 hh.symm)]

/-- Records leaving the identifier step never contain `"_id"`. -/
theorem dictGet_id_stripIdIfPresent (d : Record) :
    dictGet "_id" (stripIdIfPresent d) = none := by
  unfold stripIdIfPresent
  cases hg : dictGet "_id" d with
  | none => exact hg
  | some v =>
      unfold stripIdWith
      rw [dictGet_dictSet_ne _ "id" _ _ (by decide),
          dictGet_dictRemove_self]

/-- Normalized records never contain `"_id"`. -/
theorem dictGet_id_normalizeRecord (d : Record) :
    dictGet "_id" (normalizeRecord d) = none := by
  unfold normalizeRecord
  rw [dictGet_convertTimestamps_ne _ _ (by decide) (by decide),
      dictGet_id_stripIdIfPresent]

/-! ### Filter-builder lemmas -/

theorem mem_typeClauses (ot : Option String) (c : Clause) :
    c ∈ typeClauses ot ↔ ∃ t, ot = some t ∧ t ≠ "" ∧ c = .eqType t := by
  cases ot with
  | none => simp [typeClauses]
  | some t => by_cases h : t = "" <;> simp [typeClauses, h]

theorem mem_locationClauses (ol : Option String) (c : Clause) :
    c ∈ locationClauses ol ↔ ∃ l, ol = some l ∧ l ≠ "" ∧ c = .locRegex l := by
  cases ol with
  | none => simp [locationClauses]
  | some l => by_cases h : l = "" <;> simp [locationClauses, h]

theorem mem_bedroomsClauses (ob : Option Int) (c : Clause) :
    c ∈ bedroomsClauses ob ↔ ∃ n, ob = some n ∧ c = .eqBedrooms n := by
  cases ob <;> simp [bedroomsClauses]

theorem mem_featuredClauses (ob : Option Bool) (c : Clause) :
    c ∈ featuredClauses ob ↔ ∃ b, ob = some b ∧ c = .eqFeatured b := by
  cases ob <;> simp [featuredClauses]

theorem mem_priceClauses (lo hi : Option Rat) (c : Clause) :
    c ∈ priceClauses lo hi ↔
      ((lo ≠ none ∨ hi ≠ none) ∧ c = .priceRange lo hi) := by
  by_cases h : lo.isSome || hi.isSome
  · simp only [priceClauses, h, if_pos]
    rcases Bool.or_eq_true_iff.mp h with h' | h' <;>
      simp_all [Option.isSome_iff_ne_none]
  · have h1 : lo = none := by
      cases lo <;> simp_all
    have h2 : hi = none := by
      cases hi <;> simp_all
    simp [priceClauses, h, h1, h2]

theorem mem_qClauses (oq : Option String) (c : Clause) :
    c ∈ qClauses oq ↔ ∃ s, oq = some s ∧ s ≠ "" ∧ c = .freeText s := by
  cases oq with
  | none => simp [qClauses]
  | some s => by_cases h : s = "" <;> simp [qClauses, h]

theorem rank_of_mem_typeClauses (ot : Option String) (c : Clause)
    (h : c ∈ typeClauses ot) : clauseRank c = 0 := by
  rcases (mem_typeClauses ot c).mp h with ⟨t, _, _, rfl⟩; rfl

theorem rank_of_mem_locationClauses (ol : Option String) (c : Clause)
    (h : c ∈ locationClauses ol) : clauseRank c = 1 := by
  rcases (mem_locationClauses ol c).mp h with ⟨l, _, _, rfl⟩; rfl

theorem rank_of_mem_bedroomsClauses (ob : Option Int) (c : Clause)
    (h : c ∈ bedroomsClauses ob) : clauseRank c = 2 := by
  rcases (mem_bedroomsClauses ob c).mp h with ⟨n, _, rfl⟩; rfl

theorem rank_of_mem_featuredClauses (ob : Option Bool) (c : Clause)
    (h : c ∈ featuredClauses ob) : clauseRank c = 3 := by
  rcases (mem_featuredClauses ob c).mp h with ⟨b, _, rfl⟩; rfl

theorem rank_of_mem_priceClauses (lo hi : Option Rat) (c : Clause)
    (h : c ∈ priceClauses lo hi) : clauseRank c = 4 := by
  rcases (mem_priceClauses lo hi c).mp h with ⟨_, rfl⟩; rfl

theorem rank_of_mem_qClauses (oq : Option String) (c : Clause)
    (h : c ∈ qClauses oq) : clauseRank c = 5 := by
  rcases (mem_qClauses oq c).mp h with ⟨s, _, _, rfl⟩; rfl

/-- Every segment of the built filter holds at most one clause, so it is
trivially pairwise-ordered. -/
theorem pairwise_of_subsingleton {R : Clause → Clause → Prop}
    (l : List Clause) (h : l = [] ∨ ∃ c, l = [c]) : l.Pairwise R := by
  rcases h with rfl | ⟨c, rfl⟩ <;> simp

theorem typeClauses_shape (ot : Option String) :
    typeClauses ot = [] ∨ ∃ c, typeClauses ot = [c] := by
  cases ot with
  | none => exact Or.inl rfl
  | some t =>
      by_cases h : t = ""
      · exact Or.inl (by simp [typeClauses, h])
      · exact Or.inr ⟨Clause.eqType t, by simp [typeClauses, h]⟩

theorem locationClauses_shape (ol : Option String) :
    locationClauses ol = [] ∨ ∃ c, locationClauses ol = [c] := by
  cases ol with
  | none => exact Or.inl rfl
  | some l =>
      by_cases h : l = ""
      · exact Or.inl (by simp [locationClauses, h])
      · exact Or.inr ⟨Clause.locRegex l, by simp [locationClauses, h]⟩

theorem bedroomsClauses_shape (ob : Option Int) :
    bedroomsClauses ob = [] ∨ ∃ c, bedroomsClauses ob = [c] := by
  cases ob
  · exact Or.inl rfl
  · exact Or.inr ⟨_, rfl⟩

theorem featuredClauses_shape (ob : Option Bool) :
    featuredClauses ob = [] ∨ ∃ c, featuredClauses ob = [c] := by
  cases ob
  · exact Or.inl rfl
  · exact Or.inr ⟨_, rfl⟩

theorem priceClauses_shape (lo hi : Option Rat) :
    priceClauses lo hi = [] ∨ ∃ c, priceClauses lo hi = [c] := by
  by_cases h : lo.isSome || hi.isSome
  · exact Or.inr ⟨Clause.priceRange lo hi, by simp [priceClauses, h]⟩
  · exact Or.inl (by simp [priceClauses, h])

theorem qClauses_shape (oq : Option String) :
    qClauses oq = [] ∨ ∃ c, qClauses oq = [c] := by
  cases oq with
  | none => exact Or.inl rfl
  | some s =>
      by_cases h : s = ""
      · exact Or.inl (by simp [qClauses, h])
      · exact Or.inr ⟨Clause.freeText s, by simp [qClauses, h]⟩

theorem price_filter_typeClauses (ot : Option String) :
    (typeClauses ot).filter isPriceClause = [] := by
  cases ot with
  | none => rfl
  | some t => by_cases h : t = "" <;> simp [typeClauses, h, isPriceClause]

theorem price_filter_locationClauses (ol : Option String) :
    (locationClauses ol).filter isPriceClause = [] := by
  cases ol with
  | none => rfl
  | some l => by_cases h : l = "" <;> simp [locationClauses, h, isPriceClause]

theorem price_filter_bedroomsClauses (ob : Option Int) :
    (bedroomsClauses ob).filter isPriceClause = [] := by
  cases ob <;> simp [bedroomsClauses, isPriceClause]

theorem price_filter_featuredClauses (ob : Option Bool) :
    (featuredClauses ob).filter isPriceClause = [] := by
  cases ob <;> simp [featuredClauses, isPriceClause]

theorem price_filter_qClauses (oq : Option String) :
    (qClauses oq).filter isPriceClause = [] := by
  cases oq with
  | none => rfl
  | some s => by_cases h : s = "" <;> simp [qClauses, h, isPriceClause]

theorem price_filter_priceClauses (lo hi : Option Rat) :
    (priceClauses lo hi).filter isPriceClause = priceClauses lo hi := by
  by_cases h : lo.isSome || hi.isSome <;> simp [priceClauses, h, isPriceClause]

/-- Restricted to the `"price"` key, the built filter is exactly the price
segment. -/
theorem price_filter_buildFilter (p : ListParams) :
    (buildFilter p).filter isPriceClause = priceClauses p.min_price p.max_price := by
  simp [buildFilter, List.filter_append, price_filter_typeClauses,
    price_filter_locationClauses, price_filter_bedroomsClauses,
    price_filter_featuredClauses, price_filter_qClauses,
    price_filter_priceClauses]

theorem free_filter_typeClauses (ot : Option String) :
    (typeClauses ot).filter isFreeTextClause = [] := by
  cases ot with
  | none => rfl
  | some t => by_cases h : t = "" <;> simp [typeClauses, h, isFreeTextClause]

theorem free_filter_locationClauses (ol : Option String) :
    (locationClauses ol).filter isFreeTextClause = [] := by
  cases ol with
  | none => rfl
  | some l => by_cases h : l = "" <;> simp [locationClauses, h, isFreeTextClause]

theorem free_filter_bedroomsClauses (ob : Option Int) :
    (bedroomsClauses ob).filter isFreeTextClause = [] := by
  cases ob <;> simp [bedroomsClauses, isFreeTextClause]

theorem free_filter_featuredClauses (ob : Option Bool) :
    (featuredClauses ob).filter isFreeTextClause = [] := by
  cases ob <;> simp [featuredClauses, isFreeTextClause]

theorem free_filter_priceClauses (lo hi : Option Rat) :
    (priceClauses lo hi).filter isFreeTextClause = [] := by
  by_cases h : lo.isSome || hi.isSome <;> simp [priceClauses, h, isFreeTextClause]

theorem free_filter_qClauses (oq : Option String) :
    (qClauses oq).filter isFreeTextClause = qClauses oq := by
  cases oq with
  | none => rfl
  | some s => by_cases h : s = "" <;> simp [qClauses, h, isFreeTextClause]

/-- Restricted to the `"$or"` key, the built filter is exactly the
free-text segment. -/
theorem free_filter_buildFilter (p : ListParams) :
    (buildFilter p).filter isFreeTextClause = qClauses p.q := by
  simp [buildFilter, List.filter_append, free_filter_typeClauses,
    free_filter_locationClauses, free_filter_bedroomsClauses,
    free_filter_featuredClauses, free_filter_priceClauses,
    free_filter_qClauses]

/-- The free-text segment is the last one: dropping `q` drops exactly it. -/
theorem buildFilter_q_split (p : ListParams) :
    buildFilter p = buildFilter { p with q := none } ++ qClauses p.q := by
  simp [buildFilter, qClauses]

theorem evalFilter_append (f g : List Clause) (doc : StoredDoc) :
    evalFilter (f ++ g) doc = (evalFilter f doc && evalFilter g doc) := by
  simp [evalFilter, List.all_append]

/-! ### Normalizer structural lemmas -/

theorem dictGet_stripIdWith_ne (k : String) (v : DocValue) (d : Record)
    (h1 : k ≠ "_id") (h2 : k ≠ "id") :
    dictGet k (stripIdWith v d) = dictGet k d := by
  unfold stripIdWith
  rw [dictGet_dictSet_ne k "id" _ _ (Ne.symm h2),
      dictGet_dictRemove_ne k "_id" _ (Ne.symm h1)]

theorem dictGet_stripIdIfPresent_ne (k : String) (d : Record)
    (h1 : k ≠ "_id") (h2 : k ≠ "id") :
    dictGet k (stripIdIfPresent d) = dictGet k d := by
  cases hg : dictGet "_id" d with
  | none => simp [stripIdIfPresent, hg]
  | some v => simp [stripIdIfPresent, hg, dictGet_stripIdWith_ne k v d h1 h2]

theorem normalizeRecord_of_id (d : Record) (v : DocValue)
    (h : dictGet "_id" d = some v) :
    normalizeRecord d = convertTimestamps (stripIdWith v d) := by
  simp [normalizeRecord, stripIdIfPresent, h]

theorem normalizeRecord_of_no_id (d : Record)
    (h : dictGet "_id" d = none) :
    normalizeRecord d = convertTimestamps d := by
  simp [normalizeRecord, stripIdIfPresent, h]

/-- Appending a rank-`r` segment (at most one clause) to a pairwise-ordered
list whose ranks are below `r` keeps the list pairwise-ordered, with all
ranks below `r + 1`. -/
theorem pairwise_rank_append (l₁ l₂ : List Clause) (r : Nat)
    (h₁ : l₁.Pairwise (fun a b => clauseRank a < clauseRank b))
    (hub : ∀ c ∈ l₁, clauseRank c < r)
    (hl₂ : ∀ c ∈ l₂, clauseRank c = r)
    (h₂ : l₂ = [] ∨ ∃ c, l₂ = [c]) :
    (l₁ ++ l₂).Pairwise (fun a b => clauseRank a < clauseRank b) ∧
      ∀ c ∈ l₁ ++ l₂, clauseRank c < r + 1 := by
  constructor
  · refine List.pairwise_append.mpr ⟨h₁, pairwise_of_subsingleton _ h₂, ?_⟩
    intro a ha b hb
    rw [hl₂ b hb]
    exact hub a ha
  · intro c hc
    rcases List.mem_append.mp hc with h | h
    · exact Nat.lt_succ_of_lt (hub c h)
    · rw [hl₂ c h]
      omega

/-- Claim C1 (amended): for every combination of parameters, the Filter
Builder adds exactly the clause for each parameter that is present — and,
for the string parameters `type`, `location`, `q`, non-empty (Python
truthiness) — with equality for `type`, `bedrooms`, `featured`,
case-insensitive substring for `location`, one price-range clause, and the
free-text disjunction; it adds no clause for any absent parameter; clauses
appear in the fixed deterministic order type, location, bedrooms, featured,
price, free-text; with no parameters the expression is empty and matches
every document. -/
theorem C1_filter_builder_clauses (p : ListParams) :
    (∀ c : Clause, c ∈ buildFilter p ↔
      ((∃ t, p.type = some t ∧ t ≠ "" ∧ c = Clause.eqType t) ∨
       (∃ l, p.location = some l ∧ l ≠ "" ∧ c = Clause.locRegex l) ∨
       (∃ n, p.bedrooms = some n ∧ c = Clause.eqBedrooms n) ∨
       (∃ b, p.featured = some b ∧ c = Clause.eqFeatured b) ∨
       ((p.min_price ≠ none ∨ p.max_price ≠ none) ∧
          c = Clause.priceRange p.min_price p.max_price) ∨
       (∃ s, p.q = some s ∧ s ≠ "" ∧ c = Clause.freeText s))) ∧
    (buildFilter p).Pairwise (fun a b => clauseRank a < clauseRank b) ∧
    (p = noParams →
      buildFilter p = [] ∧
        ∀ doc : StoredDoc, evalFilter (buildFilter p) doc = true) := by
  refine ⟨?_, ?_, ?_⟩
  · intro c
    simp only [buildFilter, List.mem_append, mem_typeClauses,
      mem_locationClauses, mem_bedroomsClauses, mem_featuredClauses,
      mem_priceClauses, mem_qClauses, or_assoc]
  · have s1 := pairwise_rank_append [] (typeClauses p.type) 0
      (by simp) (by simp) (fun c hc => rank_of_mem_typeClauses _ c hc)
      (typeClauses_shape _)
    rw [List.nil_append] at s1
    have s2 := pairwise_rank_append _ (locationClauses p.location) 1
      s1.1 s1.2 (fun c hc => rank_of_mem_locationClauses _ c hc)
      (locationClauses_shape _)
    have s3 := pairwise_rank_append _ (bedroomsClauses p.bedrooms) 2
      s2.1 s2.2 (fun c hc => rank_of_mem_bedroomsClauses _ c hc)
      (bedroomsClauses_shape _)
    have s4 := pairwise_rank_append _ (featuredClauses p.featured) 3
      s3.1 s3.2 (fun c hc => rank_of_mem_featuredClauses _ c hc)
      (featuredClauses_shape _)
    have s5 := pairwise_rank_append _ (priceClauses p.min_price p.max_price) 4
      s4.1 s4.2 (fun c hc => rank_of_mem_priceClauses _ _ c hc)
      (priceClauses_shape _ _)
    have s6 := pairwise_rank_append _ (qClauses p.q) 5
      s5.1 s5.2 (fun c hc => rank_of_mem_qClauses _ c hc)
      (qClauses_shape _)
    exact s6.1
  · rintro rfl
    exact ⟨rfl, fun doc => rfl⟩

/-- Claim C1 (witness): the amended theorem applied to the all-absent
parameter set. -/
theorem C1_witness :
    buildFilter noParams = [] ∧
    evalFilter (buildFilter noParams)
      ⟨"Villa Sunset", "house", "Bali", 100, none, false⟩ = true := by
  have h := (C1_filter_builder_clauses noParams).2.2 rfl
  exact ⟨h.1, h.2 _⟩

/-- Claim C1 (counterexample): `type` supplied as the empty string is a
present parameter, yet the builder adds no clause at all for it (Python
truthiness), refuting "adds exactly the clause for each parameter that is
present". -/
theorem C1_counterexample :
    ({ noParams with type := some "" } : ListParams).type = some "" ∧
    buildFilter { noParams with type := some "" } = [] := by
  constructor
  · rfl
  · rfl

/-- Claim C2: for every choice of `min_price` / `max_price`, if at least
one is supplied the built filter contains exactly one price clause carrying
exactly the supplied inclusive bounds, and none otherwise; the
`min=100, max=500` clause evaluates as `100 <= price <= 500` and the
`min=100`-only clause as `price >= 100`. -/
theorem C2_price_range_clause (p : ListParams) :
    ((p.min_price ≠ none ∨ p.max_price ≠ none) →
      (buildFilter p).filter isPriceClause
        = [Clause.priceRange p.min_price p.max_price]) ∧
    (p.min_price = none → p.max_price = none →
      (buildFilter p).filter isPriceClause = []) ∧
    (∀ doc : StoredDoc,
      (evalClause (Clause.priceRange (some 100) (some 500)) doc = true ↔
        (100 : Rat) ≤ doc.price ∧ doc.price ≤ 500) ∧
      (evalClause (Clause.priceRange (some 100) none) doc = true ↔
        (100 : Rat) ≤ doc.price)) := by
  refine ⟨?_, ?_, ?_⟩
  · intro h
    rw [price_filter_buildFilter]
    have : p.min_price.isSome || p.max_price.isSome := by
      rcases h with h | h <;> simp_all [Option.isSome_iff_ne_none]
    simp [priceClauses, this]
  · intro h1 h2
    rw [price_filter_buildFilter]
    simp [priceClauses, h1, h2]
  · intro doc
    constructor <;> simp [evalClause]

/-- Claim C2 (witness): the theorem applied with `min_price = 100`,
`max_price = 500`, then with only `min_price = 100`, on a document priced
at 300. -/
theorem C2_witness :
    (buildFilter { noParams with min_price := some 100, max_price := some 500 }).filter
        isPriceClause = [Clause.priceRange (some 100) (some 500)] ∧
    (buildFilter { noParams with min_price := some 100 }).filter
        isPriceClause = [Clause.priceRange (some 100) none] ∧
    (buildFilter noParams).filter isPriceClause = [] ∧
    evalClause (Clause.priceRange (some 100) (some 500))
      ⟨"t", "house", "Bali", 300, none, false⟩ = true := by
  refine ⟨(C2_price_range_clause _).1 (Or.inl (by simp)),
          (C2_price_range_clause _).1 (Or.inl (by simp)),
          (C2_price_range_clause noParams).2.1 rfl rfl, ?_⟩
  exact ((C2_price_range_clause noParams).2.2
    ⟨"t", "house", "Bali", 300, none, false⟩).1.mpr (by norm_num)

/-- Claim C3 (amended): for every supplied NON-EMPTY free-text parameter
`q`, the builder adds exactly one `$or` clause, a disjunction of three
case-insensitive substring tests of `q` against title, location and type,
and this clause is conjoined (ANDed) with every other clause rather than
merged into them. -/
theorem C3_free_text_clause (p : ListParams) (q0 : String)
    (hq : p.q = some q0) (hne : q0 ≠ "") :
    (buildFilter p).filter isFreeTextClause = [Clause.freeText q0] ∧
    (∀ doc : StoredDoc,
      evalClause (Clause.freeText q0) doc
        = (substrI q0 doc.title || substrI q0 doc.location || substrI q0 doc.type)) ∧
    (∀ doc : StoredDoc,
      evalFilter (buildFilter p) doc
        = (evalFilter (buildFilter { p with q := none }) doc
            && evalClause (Clause.freeText q0) doc)) := by
  have hq' : qClauses p.q = [Clause.freeText q0] := by
    simp [qClauses, hq, hne]
  refine ⟨?_, fun doc => rfl, fun doc => ?_⟩
  · rw [free_filter_buildFilter, hq']
  · rw [buildFilter_q_split, evalFilter_append, hq']
    simp [evalFilter]

/-- Claim C3 (witness): the theorem applied to `q = "bali"` together with
`type = "house"`, on a document located in "Kuta, BALI". -/
theorem C3_witness :
    (buildFilter { noParams with q := some "bali", type := some "house" }).filter
        isFreeTextClause = [Clause.freeText "bali"] ∧
    evalClause (Clause.freeText "bali")
        ⟨"Sea villa", "house", "Kuta, BALI", 100, none, false⟩
      = (substrI "bali" "Sea villa" || substrI "bali" "Kuta, BALI"
          || substrI "bali" "house") ∧
    evalFilter (buildFilter { noParams with q := some "bali", type := some "house" })
        ⟨"Sea villa", "house", "Kuta, BALI", 100, none, false⟩
      = (evalFilter (buildFilter { noParams with type := some "house" })
          ⟨"Sea villa", "house", "Kuta, BALI", 100, none, false⟩
        && evalClause (Clause.freeText "bali")
          ⟨"Sea villa", "house", "Kuta, BALI", 100, none, false⟩) := by
  have h := C3_free_text_clause
    { noParams with q := some "bali", type := some "house" } "bali" rfl (by decide)
  exact ⟨h.1, h.2.1 _, h.2.2 _⟩

/-- Claim C3 (counterexample): `q` supplied as the empty string is a
supplied free-text parameter, yet no `$or` clause (indeed no clause at all)
is added, refuting "for every supplied free-text parameter q ... adds
exactly one additional clause". -/
theorem C3_counterexample :
    ({ noParams with q := some "" } : ListParams).q = some "" ∧
    buildFilter { noParams with q := some "" } = [] := by
  constructor
  · rfl
  · rfl

/-- Claim C4: `limit` is constrained to [1, 100] with default 20 when
absent; 0 and 101 are rejected by request validation, 1 and 100 are
accepted and passed alongside the filter expression to the store. -/
theorem C4_limit_validation (p : ListParams) :
    validateLimit none = .ok 20 ∧
    (∃ e, validateLimit (some 0) = .error e) ∧
    (∃ e, validateLimit (some 101) = .error e) ∧
    listQuery (some 1) p = .ok (buildFilter p, 1) ∧
    listQuery (some 100) p = .ok (buildFilter p, 100) ∧
    (∀ n : Int, (validateLimit (some n) = .ok n) ↔ (1 ≤ n ∧ n ≤ 100)) := by
  refine ⟨rfl, ⟨_, rfl⟩, ⟨_, rfl⟩, rfl, rfl, fun n => ?_⟩
  by_cases h : 1 ≤ n ∧ n ≤ 100
  · simp [validateLimit, h]
  · simp [validateLimit, h]

/-- Claim C5: for every stored record containing the store identifier
field `_id`, normalization removes `_id`, adds the plain string field `id`
holding its stringification, and converts `created_at` / `updated_at`
timestamp values to their ISO-8601 text; the get-by-id site performs the
same normalization on such records. -/
theorem C5_normalizer_rename_iso (d : Record) (v : DocValue)
    (h : dictGet "_id" d = some v) :
    dictGet "_id" (normalizeRecord d) = none ∧
    dictGet "id" (normalizeRecord d) = some (.str (pyStr v)) ∧
    (∀ t : PyDatetime, dictGet "created_at" d = some (.datetime t) →
        dictGet "created_at" (normalizeRecord d) = some (.str t.iso)) ∧
    (∀ t : PyDatetime, dictGet "updated_at" d = some (.datetime t) →
        dictGet "updated_at" (normalizeRecord d) = some (.str t.iso)) ∧
    getNormalize d = some (normalizeRecord d) := by
  refine ⟨dictGet_id_normalizeRecord d, ?_, ?_, ?_, ?_⟩
  · rw [normalizeRecord_of_id d v h,
        dictGet_convertTimestamps_ne _ _ (by decide) (by decide)]
    unfold stripIdWith
    exact dictGet_dictSet_self _ _ _
  · intro t ht
    rw [normalizeRecord_of_id d v h]
    unfold convertTimestamps
    have hm : dictGet "created_at" (stripIdWith v d) = some (.datetime t) := by
      rw [dictGet_stripIdWith_ne _ _ _ (by decide) (by decide)]
      exact ht
    rw [dictGet_convertField_ne _ "updated_at" _ (by decide),
        dictGet_convertField_self, hm]
    rfl
  · intro t ht
    rw [normalizeRecord_of_id d v h]
    unfold convertTimestamps
    have hm : dictGet "updated_at" (convertField "created_at" (stripIdWith v d))
        = some (.datetime t) := by
      rw [dictGet_convertField_ne _ "created_at" _ (by decide),
          dictGet_stripIdWith_ne _ _ _ (by decide) (by decide)]
      exact ht
    rw [dictGet_convertField_self, hm]
    rfl
  · simp [getNormalize, h, normalizeRecord_of_id d v h]

/-- Claim C5 (witness): normalizing
`{"_id": ObjectId("abc123..."), "created_at": T}` yields `id = "abc123..."`,
no `_id`, and the ISO text of `T`. -/
theorem C5_witness :
    dictGet "_id" (normalizeRecord
      [("_id", DocValue.oid "abc123"),
       ("created_at", DocValue.datetime ⟨"2024-05-01T10:00:00"⟩)]) = none ∧
    dictGet "id" (normalizeRecord
      [("_id", DocValue.oid "abc123"),
       ("created_at", DocValue.datetime ⟨"2024-05-01T10:00:00"⟩)])
      = some (.str "abc123") ∧
    dictGet "created_at" (normalizeRecord
      [("_id", DocValue.oid "abc123"),
       ("created_at", DocValue.datetime ⟨"2024-05-01T10:00:00"⟩)])
      = some (.str "2024-05-01T10:00:00") := by
  have h := C5_normalizer_rename_iso
    [("_id", DocValue.oid "abc123"),
     ("created_at", DocValue.datetime ⟨"2024-05-01T10:00:00"⟩)]
    (DocValue.oid "abc123") rfl
  exact ⟨h.1, h.2.1, h.2.2.1 ⟨"2024-05-01T10:00:00"⟩ rfl⟩

/-- Claim C6: a `created_at`/`updated_at` value that is not a convertible
timestamp is left unchanged, the record is still returned, and the batch is
never aborted (normalization is a total function over the batch). -/
theorem C6_malformed_timestamp_kept (ds : List Record) (d : Record)
    (k : String) (v : DocValue) (hmem : d ∈ ds)
    (hk : k = "created_at" ∨ k = "updated_at")
    (hget : dictGet k d = some v) (hbad : tryIsoformat v = none) :
    dictGet k (normalizeRecord d) = some v ∧
    normalizeRecord d ∈ normalizeBatch ds ∧
    (normalizeBatch ds).length = ds.length := by
  refine ⟨?_, List.mem_map_of_mem _ hmem, List.length_map _ _⟩
  rcases hk with rfl | rfl
  · have h1 : dictGet "created_at" (stripIdIfPresent d) = some v := by
      rw [dictGet_stripIdIfPresent_ne _ _ (by decide) (by decide)]
      exact hget
    unfold normalizeRecord convertTimestamps
    rw [dictGet_convertField_ne _ "updated_at" _ (by decide),
        dictGet_convertField_self, h1]
    simp [hbad]
  · have h1 : dictGet "updated_at" (convertField "created_at" (stripIdIfPresent d))
        = some v := by
      rw [dictGet_convertField_ne _ "created_at" _ (by decide),
          dictGet_stripIdIfPresent_ne _ _ (by decide) (by decide)]
      exact hget
    unfold normalizeRecord convertTimestamps
    rw [dictGet_convertField_self, h1]
    simp [hbad]

/-- Claim C6 (witness): a record whose `created_at` is the non-timestamp
string `"not a date"` keeps it unchanged and is still returned in the
batch. -/
theorem C6_witness :
    dictGet "created_at" (normalizeRecord
      [("_id", DocValue.oid "a1"), ("created_at", DocValue.str "not a date")])
      = some (DocValue.str "not a date") ∧
    normalizeRecord [("_id", DocValue.oid "a1"), ("created_at", DocValue.str "not a date")]
      ∈ normalizeBatch
          [[("_id", DocValue.oid "a1"), ("created_at", DocValue.str "not a date")]] ∧
    (normalizeBatch
        [[("_id", DocValue.oid "a1"), ("created_at", DocValue.str "not a date")]]).length
      = ([[("_id", DocValue.oid "a1"), ("created_at", DocValue.str "not a date")]] : List Record).length := by
  exact C6_malformed_timestamp_kept _ _ "created_at" (DocValue.str "not a date")
    (List.mem_singleton.mpr rfl) (Or.inl rfl) rfl rfl

/-- Claim C7: the Result Normalizer is idempotent — a normalized record has
no `"_id"` left (so the identifier step is skipped on re-application) and
its timestamp fields are no longer convertible (so the conversion step is a
no-op). -/
theorem C7_normalize_idempotent (d : Record) :
    normalizeRecord (normalizeRecord d) = normalizeRecord d := by
  have h1 : stripIdIfPresent (normalizeRecord d) = normalizeRecord d := by
    simp [stripIdIfPresent, dictGet_id_normalizeRecord]
  have h2 : convertField "created_at" (normalizeRecord d) = normalizeRecord d := by
    apply convertField_eq_self
    intro v hv
    unfold normalizeRecord convertTimestamps at hv
    rw [dictGet_convertField_ne _ "updated_at" _ (by decide)] at hv
    exact tryIsoformat_dictGet_convertField _ _ _ hv
  have h3 : convertField "updated_at" (normalizeRecord d) = normalizeRecord d := by
    apply convertField_eq_self
    intro v hv
    unfold normalizeRecord convertTimestamps at hv
    exact tryIsoformat_dictGet_convertField _ _ _ hv
  calc normalizeRecord (normalizeRecord d)
      = convertField "updated_at" (convertField "created_at"
          (stripIdIfPresent (normalizeRecord d))) := rfl
    _ = normalizeRecord d := by rw [h1, h2, h3]

/-- Claim C8 (counterexample): the normalization of `get_property`
(main.py line 157) pops `"_id"` without a presence guard, so on a record
with no identifier field it raises `KeyError` instead of passing the
record through; moreover even the guarded list-endpoint normalizer does
not leave such a record unchanged when it holds a convertible timestamp. -/
theorem C8_counterexample :
    getNormalize [("title", DocValue.str "x")] = none ∧
    normalizeRecord [("created_at", DocValue.datetime ⟨"2024-01-01T00:00:00"⟩)]
      ≠ [("created_at", DocValue.datetime ⟨"2024-01-01T00:00:00"⟩)] := by
  exact ⟨rfl, by decide⟩

/-- Claim C8 (amended): the list-endpoint normalizer is a total function
and, on a record with no identifier field, skips the identifier step
(leaving the record unchanged whenever its timestamp fields are not
convertible); the get-by-id normalization, by contrast, fails (uncaught
`KeyError`) exactly on records with no identifier field. -/
theorem C8_no_id_passthrough (d : Record) (hid : dictGet "_id" d = none) :
    getNormalize d = none ∧
    normalizeRecord d = convertTimestamps d ∧
    ((∀ v, dictGet "created_at" d = some v → tryIsoformat v = none) →
     (∀ v, dictGet "updated_at" d = some v → tryIsoformat v = none) →
     normalizeRecord d = d) := by
  refine ⟨by simp [getNormalize, hid], normalizeRecord_of_no_id d hid,
    fun hc hu => ?_⟩
  rw [normalizeRecord_of_no_id d hid]
  unfold convertTimestamps
  rw [convertField_eq_self "created_at" d hc]
  exact convertField_eq_self "updated_at" d hu

/-- Claim C8 (witness): a record with no identifier field and no timestamp
fields passes through the list normalizer unchanged, while the get-by-id
normalization fails on it. -/
theorem C8_witness :
    getNormalize [("title", DocValue.str "Villa")] = none ∧
    normalizeRecord [("title", DocValue.str "Villa")]
      = [("title", DocValue.str "Villa")] := by
  have h := C8_no_id_passthrough [("title", DocValue.str "Villa")] rfl
  refine ⟨h.1, h.2.2 ?_ ?_⟩ <;> intro v hv <;> exact absurd hv (by simp [dictGet])

/-- Claim C9 (counterexample): with the database handle unconfigured, a
malformed identifier is answered 500 "Database not configured", not a
400-class "malformed identifier" error, refuting the claim for every
request. -/
theorem C9_counterexample :
    isValidObjectId "nope" = false ∧
    get_property none "nope" = .err 500 "Database not configured" := by
  exact ⟨rfl, rfl⟩

/-- Claim C9 (amended): provided the database handle is configured — a
malformed identifier is answered 400 "Invalid property id"; a well-formed
identifier with no record is answered 404 "Property not found"; and only on
success is the normalized record returned. -/
theorem C9_lookup_behaviour (store : Store) (pid : String) :
    (isValidObjectId pid = false →
      get_property (some store) pid = .err 400 "Invalid property id") ∧
    (isValidObjectId pid = true → store pid = none →
      get_property (some store) pid = .err 404 "Property not found") ∧
    (∀ doc nd, isValidObjectId pid = true → store pid = some doc →
      doc.isEmpty = false → getNormalize doc = some nd →
      get_property (some store) pid = .ok nd) := by
  refine ⟨fun hv => ?_, fun hv hs => ?_, fun doc nd hv hs hne hn => ?_⟩
  · simp [get_property, hv]
  · simp [get_property, hv, hs]
  · simp [get_property, hv, hs, hne, hn]

/-- Claim C9 (witness): against a configured one-document store — a
malformed id gives 400, an absent well-formed id gives 404, and the held
document comes back normalized. -/
theorem C9_witness :
    get_property (some testStore) "zz" = .err 400 "Invalid property id" ∧
    get_property (some testStore) "aaaaaaaaaaaaaaaaaaaaaaaa"
      = .err 404 "Property not found" ∧
    get_property (some testStore) "0123456789abcdef01234567"
      = .ok [("title", DocValue.str "Villa"),
             ("id", DocValue.str "0123456789abcdef01234567")] := by
  refine ⟨(C9_lookup_behaviour testStore "zz").1 rfl,
          (C9_lookup_behaviour testStore "aaaaaaaaaaaaaaaaaaaaaaaa").2.1 rfl rfl,
          (C9_lookup_behaviour testStore "0123456789abcdef01234567").2.2
            _ _ rfl rfl rfl rfl⟩

/-- Claim C10: in `get_property` the store-unavailable check precedes
identifier validation — with the database handle `None`, every request
(malformed identifiers included) is answered 500 "Database not configured",
never 400. -/
theorem C10_store_check_precedence (pid : String) :
    get_property none pid = .err 500 "Database not configured" ∧
    (isValidObjectId pid = false →
      get_property none pid ≠ .err 400 "Invalid property id") := by
  refine ⟨rfl, fun _ h => ?_⟩
  simp [get_property] at h

/-- Claim C10 (witness): a concrete malformed identifier with the database
handle `None` yields the 500 error, not the 400 one. -/
theorem C10_witness :
    get_property none "zz!" = .err 500 "Database not configured" ∧
    get_property none "zz!" ≠ .err 400 "Invalid property id" := by
  exact ⟨(C10_store_check_precedence "zz!").1,
         (C10_store_check_precedence "zz!").2 rfl⟩
